import Mathlib

/-!
Shallow embedding of the 2D-map logic of `src/index.js` of the
3d-globe-with-threejs repository: the equirectangular projection
`latLonToXY`, the GeoJSON path builders (`drawGeometryPath`,
`drawPolygonPath`, `drawLineStringPath`), the per-feature draw passes
(`drawLandAreas`, `drawCountryBorders`), the offscreen render cache
(`render2DMapOffscreen`), the resize handler (`handleWindowResize`) and
the 2D/3D toggle (`toggle2D3D`).

JavaScript number arithmetic is modelled exactly over `ℚ`; canvas path
operations are modelled as an emitted list of `PathOp`s; the mutable
module state is modelled as an explicit `AppState` record.
-/

namespace GlobeMap

/-- The `{x, y}` pixel record returned by `latLonToXY`. -/
structure Point where
  x : ℚ
  y : ℚ
  deriving DecidableEq, Repr

/-- `src/index.js` lines 64-69: equirectangular projection.
`x = (lon + 180) * (width / 360)`, `y = (90 - lat) * (height / 180)`,
with no validation of the inputs. -/
def latLonToXY (lat lon width height : ℚ) : Point :=
  { x := (lon + 180) * (width / 360), y := (90 - lat) * (height / 180) }

/-- One path operation emitted on a 2D canvas context. -/
inductive PathOp where
  | moveTo (p : Point)
  | lineTo (p : Point)
  | closePath
  deriving DecidableEq, Repr

/-- A GeoJSON coordinate entry as the path builders see it: either missing
(`null`/`undefined`, the `!coord` test of lines 154/174) or an array of
numeric components (accessed via `coord.length`, `coord[0]`, `coord[1]`). -/
abbrev Coord := Option (List ℚ)

/-- Negation of the skip guard of lines 154 and 174
(`if (!coord || coord.length < 2) return;`): an entry is well-formed when
it is present and has at least 2 components. -/
def wfCoord : Coord → Bool
  | none => false
  | some comps => decide (2 ≤ comps.length)

/-- The point a coordinate entry projects to (lines 156 and 176):
`latLonToXY(coord[1], coord[0], width, height)`; the `none` case is never
reached on well-formed entries. -/
def projCoord (width height : ℚ) : Coord → Point
  | none => ⟨0, 0⟩
  | some comps => latLonToXY (comps.getD 1 0) (comps.getD 0 0) width height

/-- The shared coordinate loop of lines 152-164 and 172-184: walk the
entries with a `firstPoint` flag; a missing entry or one with fewer than
2 components is skipped; otherwise the projected point is emitted as a
`moveTo` (first processed point) or a `lineTo`. -/
def drawCoords (width height : ℚ) : Bool → List Coord → List PathOp
  | _, [] => []
  | firstPoint, c :: cs =>
    match c with
    | none => drawCoords width height firstPoint cs
    | some comps =>
      if comps.length < 2 then drawCoords width height firstPoint cs
      else
        let p := latLonToXY (comps.getD 1 0) (comps.getD 0 0) width height
        if firstPoint then PathOp.moveTo p :: drawCoords width height false cs
        else PathOp.lineTo p :: drawCoords width height false cs

/-- The per-ring body of `drawPolygonPath` (lines 149-166): a ring with
fewer than 3 entries is skipped entirely; otherwise its entries are walked
and the sub-path is closed with `closePath`. -/
def drawRingPath (width height : ℚ) (ring : List Coord) : List PathOp :=
  if ring.length < 3 then []
  else drawCoords width height true ring ++ [PathOp.closePath]

/-- `src/index.js` lines 148-167: `coordinates.forEach(ring => ...)`. -/
def drawPolygonPath (width height : ℚ) (coordinates : List (List Coord)) :
    List PathOp :=
  (coordinates.map (drawRingPath width height)).flatten

/-- `src/index.js` lines 169-185: a line with fewer than 2 entries emits
nothing; otherwise its entries are walked (no `closePath`). -/
def drawLineStringPath (width height : ℚ) (coordinates : List Coord) :
    List PathOp :=
  if coordinates.length < 2 then []
  else drawCoords width height true coordinates

/-- The `coordinates` value of a geometry. The embedding's domain covers
well-nested coordinate arrays (positions, arrays of rings, arrays of
polygons) and non-array scalars. A non-array where the dispatched builder
iterates raises a `TypeError` in JavaScript (`forEach`/`length` on a
non-array); a mis-nested array is likewise modelled as a `TypeError`, a
case no settled claim depends on. -/
inductive CoordsVal where
  | positions (pts : List Coord)
  | rings (rs : List (List Coord))
  | polys (ps : List (List (List Coord)))
  | nonArray
  deriving DecidableEq, Repr

/-- A GeoJSON geometry: a `type` tag plus `coordinates`. -/
structure Geometry where
  gtype : String
  coordinates : CoordsVal
  deriving DecidableEq, Repr

/-- `src/index.js` lines 129-146: dispatch on `geometry.type`. The switch
has no default case, so an unknown type emits nothing and does not throw.
Iterating a coordinates value whose shape does not fit the dispatched
builder throws, modelled as `Except.error`. -/
def drawGeometryPath (width height : ℚ) (g : Geometry) :
    Except String (List PathOp) :=
  if g.gtype = "Polygon" then
    match g.coordinates with
    | .rings rs => .ok (drawPolygonPath width height rs)
    | _ => .error "TypeError"
  else if g.gtype = "MultiPolygon" then
    match g.coordinates with
    | .polys ps => .ok ((ps.map (drawPolygonPath width height)).flatten)
    | _ => .error "TypeError"
  else if g.gtype = "LineString" then
    match g.coordinates with
    | .positions pts => .ok (drawLineStringPath width height pts)
    | _ => .error "TypeError"
  else if g.gtype = "MultiLineString" then
    match g.coordinates with
    | .rings ls => .ok ((ls.map (drawLineStringPath width height)).flatten)
    | _ => .error "TypeError"
  else .ok []

/-- A GeoJSON feature; `geometry` may be absent (the `!feature.geometry`
guard of lines 97/117). -/
structure Feature where
  geometry : Option Geometry
  deriving DecidableEq, Repr

/-- The per-feature body of `drawLandAreas` (lines 96-106): a feature
without geometry is skipped before the `try`; inside the `try` the path is
traced and filled; a thrown error is caught and logged, so nothing is
filled for that feature (`none`). -/
def drawFeatureFill (width height : ℚ) (f : Feature) :
    Option (List PathOp) :=
  match f.geometry with
  | none => none
  | some g =>
    match drawGeometryPath width height g with
    | .ok ops => some ops
    | .error _ => none

/-- The per-feature body of `drawCountryBorders` (lines 116-126): same
control flow as `drawFeatureFill`, with a stroke instead of a fill. -/
def drawFeatureStroke (width height : ℚ) (f : Feature) :
    Option (List PathOp) :=
  match f.geometry with
  | none => none
  | some g =>
    match drawGeometryPath width height g with
    | .ok ops => some ops
    | .error _ => none

/-- A parsed GeoJSON dataset; the `features` field may be absent
(the `!landData.features` guard of lines 91/110). -/
structure FeatureCollection where
  features : Option (List Feature)
  deriving DecidableEq, Repr

/-- `src/index.js` lines 90-107: the land-fill pass, one entry per
feature (`none` = skipped or caught-and-logged, `some ops` = filled). -/
def drawLandAreas (width height : ℚ) (fc : FeatureCollection) :
    List (Option (List PathOp)) :=
  match fc.features with
  | none => []
  | some fs => fs.map (drawFeatureFill width height)

/-- `src/index.js` lines 109-127: the border-stroke pass. -/
def drawCountryBorders (width height : ℚ) (fc : FeatureCollection) :
    List (Option (List PathOp)) :=
  match fc.features with
  | none => []
  | some fs => fs.map (drawFeatureStroke width height)

/-- The offscreen canvas content: the ocean fill of lines 77-78 plus the
results of the two draw passes. -/
structure Buffer where
  oceanFilled : Bool
  landFills : List (Option (List PathOp))
  borderStrokes : List (Option (List PathOp))
  deriving DecidableEq, Repr

/-- The module-level mutable state of `src/index.js`: the toggle state
`is3D` (line 42), the two datasets (lines 43-44), the cache flag
`map2DRendered` (line 45), the canvas dimensions and the offscreen
buffer. -/
structure AppState where
  is3D : Bool
  landData : Option FeatureCollection
  outlineData : Option FeatureCollection
  map2DRendered : Bool
  width : ℚ
  height : ℚ
  offscreen : Buffer
  deriving DecidableEq, Repr

/-- `src/index.js` lines 71-88: `render2DMapOffscreen`. Returns early if
either dataset is missing or the map is already rendered
(`if (!landData || !outlineData || map2DRendered) return;`); otherwise
composes ocean fill, land pass and border pass into the offscreen buffer
and sets `map2DRendered = true`. -/
def render2DMapOffscreen (s : AppState) : AppState :=
  match s.landData, s.outlineData with
  | some land, some outline =>
    if s.map2DRendered then s
    else
      { s with
        offscreen :=
          { oceanFilled := true
            landFills := drawLandAreas s.width s.height land
            borderStrokes := drawCountryBorders s.width s.height outline }
        map2DRendered := true }
  | _, _ => s

/-- The synchronous part of `handleWindowResize` (lines 349-366): resize
both canvases and mark the 2D map as needing re-render
(`map2DRendered = false`). The `setTimeout` re-render of lines 368-373
runs later on the event loop and is modelled as a separate step
(`toggle2DDisplayStep`). -/
def handleWindowResize (s : AppState) (newWidth newHeight : ℚ) : AppState :=
  { s with width := newWidth, height := newHeight, map2DRendered := false }

/-- Which branch the switch-to-2D display logic takes. -/
inductive DisplayPath where
  | blitCached
  | loadingThenRender
  deriving DecidableEq, Repr

/-- The switch-to-2D display logic of `toggle2D3D` (lines 292-307): if
`map2DRendered` the pre-rendered buffer is blitted unchanged; otherwise a
loading placeholder is shown and `render2DMapOffscreen` runs after a
`setTimeout`. -/
def toggle2DDisplayStep (s : AppState) : AppState × DisplayPath :=
  if s.map2DRendered then (s, DisplayPath.blitCached)
  else (render2DMapOffscreen s, DisplayPath.loadingThenRender)

/-- The toggle button's DOM state. -/
structure Button where
  disabled : Bool
  textContent : String
  deriving DecidableEq, Repr

/-- `src/index.js` lines 264-320: `toggle2D3D`. A disabled button makes
the handler return immediately (lines 267-268); otherwise the switch work
of the `try` block runs inside the `requestAnimationFrame` callback. Its
outcome is passed in as `body`: `.ok s'` is a completed switch (the button
is re-enabled with the mode label of line 312), `.error (e, sPartial)` is
a throw part-way through, carrying the state mutated so far; the `catch`
of lines 314-318 re-enables the button with the try-again label. The
handler always returns normally: the codomain is a plain pair, so a
thrown error never propagates out. The body is abstracted because the
throws originate in DOM/canvas calls outside this model. -/
def toggle2D3D (s : AppState) (b : Button)
    (body : Except (String × AppState) AppState) : AppState × Button :=
  if b.disabled then (s, b)
  else
    match body with
    | .ok s' =>
      (s', { disabled := false
             textContent :=
               if s'.is3D then "Switch to 2D Map" else "Switch to 3D Globe" })
    | .error (_, sPartial) =>
      (sPartial, { disabled := false, textContent := "Toggle Failed - Try Again" })

/-- A concrete application state used to instantiate theorems with
hypotheses on concrete inputs. -/
def sampleState : AppState :=
  { is3D := true
    landData := some { features := some [{ geometry := some { gtype := "Polygon", coordinates := CoordsVal.rings [[some [0, 0], some [10, 0], some [10, 10]]] } }] }
    outlineData := some { features := none }
    map2DRendered := false
    width := 360
    height := 180
    offscreen := { oceanFilled := false, landFills := [], borderStrokes := [] } }

/-! ## Helper lemmas -/

/-- On a run of well-formed entries with `firstPoint` already consumed,
the coordinate loop emits exactly one `lineTo` per entry. -/
lemma drawCoords_false_map (width height : ℚ) (cs : List Coord)
    (h : ∀ c ∈ cs, wfCoord c = true) :
    drawCoords width height false cs =
      cs.map (fun c => PathOp.lineTo (projCoord width height c)) := by
  induction cs with
  | nil => rfl
  | cons c cs ih =>
    have hc := h c (List.mem_cons_self c cs)
    cases c with
    | none => simp [wfCoord] at hc
    | some comps =>
      have h2 : 2 ≤ comps.length := of_decide_eq_true hc
      have h2' : ¬ comps.length < 2 := by omega
      simp [drawCoords, h2', projCoord,
        ih (fun d hd => h d (List.mem_cons_of_mem _ hd))]

/-! ## Claims -/

/-- C1: for every latitude, longitude, width and height (out-of-range
values included) `latLonToXY` returns exactly
`x = (lon + 180) * width / 360` and `y = (90 - lat) * height / 180`,
never failing (it is a total function); in particular `(lat, lon) = (0, 0)`
on a 360x180 canvas projects to `(180, 90)`. -/
theorem latLonToXY_formula :
    (∀ lat lon width height : ℚ,
      latLonToXY lat lon width height =
        ⟨(lon + 180) * width / 360, (90 - lat) * height / 180⟩) ∧
    latLonToXY 0 0 360 180 = ⟨180, 90⟩ := by
  constructor
  · intro lat lon width height
    simp only [latLonToXY, Point.mk.injEq]
    constructor <;> ring
  · norm_num [latLonToXY]

/-- C2: for fixed positive width and height and in-range coordinates, the
projection is monotonic: a larger longitude gives a strictly larger `x`,
and a larger latitude gives a strictly smaller `y`. -/
theorem latLonToXY_monotone (width height lat1 lat2 lon1 lon2 : ℚ)
    (hw : 0 < width) (hh : 0 < height)
    (_hlat1l : -90 ≤ lat1) (_hlat1u : lat1 ≤ 90)
    (_hlat2l : -90 ≤ lat2) (_hlat2u : lat2 ≤ 90)
    (_hlon1l : -180 ≤ lon1) (_hlon1u : lon1 ≤ 180)
    (_hlon2l : -180 ≤ lon2) (_hlon2u : lon2 ≤ 180)
    (hlon : lon1 < lon2) (hlat : lat1 < lat2) :
    (latLonToXY lat1 lon1 width height).x <
      (latLonToXY lat1 lon2 width height).x ∧
    (latLonToXY lat2 lon1 width height).y <
      (latLonToXY lat1 lon1 width height).y := by
  have hw' : (0 : ℚ) < width / 360 := by positivity
  have hh' : (0 : ℚ) < height / 180 := by positivity
  constructor
  · simpa [latLonToXY] using
      mul_lt_mul_of_pos_right (by linarith : lon1 + 180 < lon2 + 180) hw'
  · simpa [latLonToXY] using
      mul_lt_mul_of_pos_right (by linarith : 90 - lat2 < 90 - lat1) hh'

/-- Witness for C2 at `lon1 = 0 < lon2 = 10`, `lat1 = 0 < lat2 = 10` on a
360x180 canvas. -/
theorem latLonToXY_monotone_witness :
    (latLonToXY 0 0 360 180).x < (latLonToXY 0 10 360 180).x ∧
    (latLonToXY 10 0 360 180).y < (latLonToXY 0 0 360 180).y :=
  latLonToXY_monotone 360 180 0 10 0 10 (by norm_num) (by norm_num)
    (by norm_num) (by norm_num) (by norm_num) (by norm_num) (by norm_num)
    (by norm_num) (by norm_num) (by norm_num) (by norm_num) (by norm_num)

/-- C3: a ring with fewer than 3 entries and a line with fewer than 2
entries emit no path operations at all — no `moveTo`, `lineTo` or
`closePath`. -/
theorem short_rings_and_lines_not_drawn (width height : ℚ)
    (ring ln : List Coord) (hr : ring.length < 3) (hl : ln.length < 2) :
    drawRingPath width height ring = [] ∧
    drawPolygonPath width height [ring] = [] ∧
    drawLineStringPath width height ln = [] := by
  refine ⟨?_, ?_, ?_⟩ <;>
    simp [drawRingPath, drawPolygonPath, drawLineStringPath, hr, hl]

/-- Witness for C3: a 1-entry ring and an empty line emit nothing. -/
theorem short_rings_and_lines_not_drawn_witness :
    drawRingPath 360 180 [some [0, 0]] = [] ∧
    drawPolygonPath 360 180 [[some [0, 0]]] = [] ∧
    drawLineStringPath 360 180 [] = [] :=
  short_rings_and_lines_not_drawn 360 180 [some [0, 0]] [] (by decide)
    (by decide)

/-- C4: a ring of at least 3 well-formed entries becomes exactly one
closed sub-path: a `moveTo` for the first entry, a `lineTo` for each
subsequent entry, then a `closePath`. -/
theorem polygon_ring_closed_subpath (width height : ℚ) (c : Coord)
    (cs : List Coord) (hwf : ∀ x ∈ c :: cs, wfCoord x = true)
    (hlen : 3 ≤ (c :: cs).length) :
    drawRingPath width height (c :: cs) =
      PathOp.moveTo (projCoord width height c) ::
        (cs.map fun d => PathOp.lineTo (projCoord width height d)) ++
          [PathOp.closePath] := by
  have hc := hwf c (List.mem_cons_self c cs)
  have hnot : ¬ (c :: cs).length < 3 := by omega
  cases c with
  | none => simp [wfCoord] at hc
  | some comps =>
    have h2 : 2 ≤ comps.length := of_decide_eq_true hc
    have h2' : ¬ comps.length < 2 := by omega
    have hlen' : 2 ≤ cs.length := by
      simp only [List.length_cons] at hlen
      omega
    simp [drawRingPath, hnot, hlen', drawCoords, h2', projCoord,
      drawCoords_false_map width height cs
        (fun d hd => hwf d (List.mem_cons_of_mem _ hd))]

/-- Witness for C4: the triangle ring `[[0,0],[10,0],[10,10]]` on a
360x180 canvas produces one `moveTo`, two `lineTo`s and one `closePath`. -/
theorem polygon_ring_closed_subpath_witness :
    drawRingPath 360 180 [some [0, 0], some [10, 0], some [10, 10]] =
      PathOp.moveTo (projCoord 360 180 (some [0, 0])) ::
        ([some [10, 0], some [10, 10]].map fun d =>
          PathOp.lineTo (projCoord 360 180 d)) ++ [PathOp.closePath] :=
  polygon_ring_closed_subpath 360 180 (some [0, 0])
    [some [10, 0], some [10, 10]] (by decide) (by decide)

/-- C5: a coordinate entry that is missing or has fewer than 2 components
is skipped individually — deleting it from the ring's or line's entry
walk changes nothing, so the remaining well-formed entries are still
drawn and a malformed entry is never fatal. -/
theorem malformed_entry_skipped (width height : ℚ) (fp : Bool)
    (xs ys : List Coord) (c : Coord) (hc : wfCoord c = false) :
    drawCoords width height fp (xs ++ c :: ys) =
      drawCoords width height fp (xs ++ ys) := by
  induction xs generalizing fp with
  | nil =>
    cases c with
    | none => simp [drawCoords]
    | some comps =>
      have h2 : comps.length < 2 := by
        have hnot : ¬ 2 ≤ comps.length := by
          simpa [wfCoord] using hc
        omega
      simp [drawCoords, h2]
  | cons x xs ih =>
    cases x with
    | none => simp only [List.cons_append, drawCoords]; exact ih fp
    | some comps =>
      by_cases h2 : comps.length < 2
      · simp only [List.cons_append, drawCoords, if_pos h2]
        exact ih fp
      · cases fp <;>
          simp only [List.cons_append, drawCoords, if_neg h2,
            if_pos, if_neg, Bool.false_eq_true, ite_false, ite_true] <;>
          exact congrArg _ (ih false)

/-- Witness for C5: inserting the malformed entry `some [5]` into a line
walk leaves the emitted operations unchanged. -/
theorem malformed_entry_skipped_witness :
    drawCoords 360 180 true
        ([some [0, 0]] ++ some [5] :: [some [10, 0]]) =
      drawCoords 360 180 true ([some [0, 0]] ++ [some [10, 0]]) :=
  malformed_entry_skipped 360 180 true [some [0, 0]] [some [10, 0]]
    (some [5]) (by decide)

/-- C6: a feature whose geometry throws while being drawn is caught and
logged (its entry is `none`), and both the land-fill pass and the
border-stroke pass still draw every other feature of the list exactly as
they would without it. -/
theorem feature_failure_isolated (width height : ℚ)
    (fs1 fs2 : List Feature) (f : Feature) (g : Geometry) (e : String)
    (hg : f.geometry = some g)
    (he : drawGeometryPath width height g = .error e) :
    drawLandAreas width height ⟨some (fs1 ++ f :: fs2)⟩ =
      drawLandAreas width height ⟨some fs1⟩ ++
        none :: drawLandAreas width height ⟨some fs2⟩ ∧
    drawCountryBorders width height ⟨some (fs1 ++ f :: fs2)⟩ =
      drawCountryBorders width height ⟨some fs1⟩ ++
        none :: drawCountryBorders width height ⟨some fs2⟩ := by
  constructor <;>
    simp [drawLandAreas, drawCountryBorders, drawFeatureFill,
      drawFeatureStroke, hg, he]

/-- Witness for C6: a `MultiPolygon` feature whose coordinates are not an
array throws; the well-formed features around it are still drawn. -/
theorem feature_failure_isolated_witness :
    drawLandAreas 360 180
        ⟨some ([⟨some ⟨"LineString", CoordsVal.positions []⟩⟩] ++
          ⟨some ⟨"MultiPolygon", CoordsVal.nonArray⟩⟩ ::
            [⟨some ⟨"Polygon", CoordsVal.rings []⟩⟩])⟩ =
      drawLandAreas 360 180 ⟨some [⟨some ⟨"LineString", CoordsVal.positions []⟩⟩]⟩ ++
        none :: drawLandAreas 360 180 ⟨some [⟨some ⟨"Polygon", CoordsVal.rings []⟩⟩]⟩ ∧
    drawCountryBorders 360 180
        ⟨some ([⟨some ⟨"LineString", CoordsVal.positions []⟩⟩] ++
          ⟨some ⟨"MultiPolygon", CoordsVal.nonArray⟩⟩ ::
            [⟨some ⟨"Polygon", CoordsVal.rings []⟩⟩])⟩ =
      drawCountryBorders 360 180 ⟨some [⟨some ⟨"LineString", CoordsVal.positions []⟩⟩]⟩ ++
        none :: drawCountryBorders 360 180 ⟨some [⟨some ⟨"Polygon", CoordsVal.rings []⟩⟩]⟩ :=
  feature_failure_isolated 360 180
    [⟨some ⟨"LineString", CoordsVal.positions []⟩⟩]
    [⟨some ⟨"Polygon", CoordsVal.rings []⟩⟩]
    ⟨some ⟨"MultiPolygon", CoordsVal.nonArray⟩⟩
    ⟨"MultiPolygon", CoordsVal.nonArray⟩ "TypeError" rfl rfl

/-- C7: with both datasets loaded, the first offscreen render sets the
`map2DRendered` flag, rendering twice equals rendering once, and while
the flag is set a render invocation is a no-op leaving the whole state
(offscreen buffer included) unchanged. -/
theorem render_cache_idempotent (s : AppState)
    (hl : s.landData.isSome = true) (ho : s.outlineData.isSome = true) :
    (render2DMapOffscreen s).map2DRendered = true ∧
    render2DMapOffscreen (render2DMapOffscreen s) = render2DMapOffscreen s ∧
    (s.map2DRendered = true → render2DMapOffscreen s = s) := by
  obtain ⟨land, hland⟩ := Option.isSome_iff_exists.mp hl
  obtain ⟨outl, houtl⟩ := Option.isSome_iff_exists.mp ho
  by_cases hr : s.map2DRendered <;>
    simp [render2DMapOffscreen, hland, houtl, hr]

/-- Witness for C7 on `sampleState`, whose two datasets are loaded. -/
theorem render_cache_idempotent_witness :
    (render2DMapOffscreen sampleState).map2DRendered = true ∧
    render2DMapOffscreen (render2DMapOffscreen sampleState) =
      render2DMapOffscreen sampleState ∧
    (sampleState.map2DRendered = true →
      render2DMapOffscreen sampleState = sampleState) :=
  render_cache_idempotent sampleState rfl rfl

/-- C8: every resize sets the cache-valid flag `map2DRendered` to false,
so the next switch-to-2D display takes the re-render branch (loading
placeholder then `render2DMapOffscreen`) rather than blitting the stale
cached buffer. -/
theorem resize_invalidates_cache (s : AppState) (newWidth newHeight : ℚ) :
    (handleWindowResize s newWidth newHeight).map2DRendered = false ∧
    (toggle2DDisplayStep (handleWindowResize s newWidth newHeight)).2 =
      DisplayPath.loadingThenRender := by
  simp [handleWindowResize, toggle2DDisplayStep]

/-- C9: an error thrown during the toggle's switch work is caught at the
top level of the handler — which returns normally, so the error never
propagates — and the button is reset to an actionable state: re-enabled
with the try-again label. -/
theorem toggle_error_resets_button (s sPartial : AppState) (b : Button)
    (e : String) (hb : b.disabled = false) :
    toggle2D3D s b (.error (e, sPartial)) =
      (sPartial,
        { disabled := false, textContent := "Toggle Failed - Try Again" }) := by
  simp [toggle2D3D, hb]

/-- Witness for C9 on `sampleState` with an enabled button. -/
theorem toggle_error_resets_button_witness :
    toggle2D3D sampleState ⟨false, "Switch to 2D Map"⟩
        (.error ("TypeError", sampleState)) =
      (sampleState,
        { disabled := false, textContent := "Toggle Failed - Try Again" }) :=
  toggle_error_resets_button sampleState sampleState
    ⟨false, "Switch to 2D Map"⟩ "TypeError" rfl

/-- C10: a geometry whose type is none of Polygon, MultiPolygon,
LineString, MultiLineString falls through the switch: `drawGeometryPath`
emits no path operations and does not throw. -/
theorem unknown_geometry_ignored (width height : ℚ) (g : Geometry)
    (h1 : g.gtype ≠ "Polygon") (h2 : g.gtype ≠ "MultiPolygon")
    (h3 : g.gtype ≠ "LineString") (h4 : g.gtype ≠ "MultiLineString") :
    drawGeometryPath width height g = .ok [] := by
  simp [drawGeometryPath, h1, h2, h3, h4]

/-- Witness for C10: a `Point` geometry (even with non-array coordinates)
is silently ignored. -/
theorem unknown_geometry_ignored_witness :
    drawGeometryPath 360 180 ⟨"Point", CoordsVal.nonArray⟩ = .ok [] :=
  unknown_geometry_ignored 360 180 ⟨"Point", CoordsVal.nonArray⟩
    (by decide) (by decide) (by decide) (by decide)

end GlobeMap
